import Mathlib

/-!
Verification of the knxnetjs KNX client library against its specification.

Buffers are modelled as `List Nat` whose elements are byte values; Node.js
`Buffer.readUInt8` / `readUInt16BE` at an in-bounds offset become `List.getD`
reads (big-endian for the 16-bit form).  Every definition below is translated
from the TypeScript sources; the file or line of origin is stated in the doc
comment of each definition.  Where the repository's `constants.ts` file is not
among the sources, the spec's normative constant values are used and marked as
such.
-/

/-- Node `buffer.readUInt8(i)` at an in-bounds offset `i` (the callers below
guard the bounds exactly as the TypeScript source does). -/
def readUInt8 (b : List Nat) (i : Nat) : Nat := b.getD i 0

/-- Node `buffer.readUInt16BE(i)` at an in-bounds offset: big-endian 16-bit
read. -/
def readUInt16BE (b : List Nat) (i : Nat) : Nat :=
  256 * b.getD i 0 + b.getD (i + 1) 0

/-- Node `buffer.writeUInt16BE(v)` for an in-range value `v < 0x10000`:
big-endian byte pair.  (Node throws for out-of-range values; all call sites
below write values read from two bytes or small constants.) -/
def writeUInt16BE (v : Nat) : List Nat := [v / 256 % 256, v % 256]

/-- Exception-aware model of `buffer.readUInt8(i)`: Node throws
ERR_OUT_OF_RANGE when `i` is not a valid index. -/
def readUInt8E (b : List Nat) (i : Nat) : Except String Nat :=
  if h : i < b.length then .ok (b.get ⟨i, h⟩) else .error "out of range"

/-- Exception-aware model of `buffer.readUInt16BE(i)`: Node throws unless
`i + 2 ≤ b.length`. -/
def readUInt16BEE (b : List Nat) (i : Nat) : Except String Nat :=
  if i + 2 ≤ b.length then .ok (256 * b.getD i 0 + b.getD (i + 1) 0)
  else .error "out of range"

namespace CEMIFrame

/-- One additional-information entry, `AdditionalInfo` in the source. -/
structure AddInfo where
  type : Nat
  length : Nat
  data : List Nat
deriving DecidableEq, Repr

/-- The numeric values of the `CEMIMessageCode` enum
(src/src/interfaces/tunneling.ts, lines 745-767).  `Object.values` of a
numeric TypeScript enum contains the names as well, but `includes(number)`
can only match the numeric values. -/
def cemiMessageCodes : List Nat :=
  [0x11, 0x2e, 0x29, 0x2b, 0x10, 0x2d, 0x2f, 0x13, 0x25,
   0xfc, 0xfb, 0xf6, 0xf5, 0xf7, 0xf8, 0xf9, 0xfa, 0xf1, 0xf0]

/-- `CEMIFrame.messageCode` getter: `this.buffer.readUInt8(0)`. -/
def messageCode (b : List Nat) : Nat := readUInt8 b 0

/-- `CEMIFrame.additionalInfoLength` getter:
`this.buffer.length > 1 ? this.buffer.readUInt8(1) : 0`. -/
def additionalInfoLength (b : List Nat) : Nat :=
  if b.length > 1 then readUInt8 b 1 else 0

/-- Loop body of the `CEMIFrame.additionalInfo` getter (tunneling.ts lines
921-932): entries `{type, length, data}` are read until the declared end
offset, breaking on truncated entries. -/
def parseAddInfoEntries (b : List Nat) (offset endOffset : Nat) : List AddInfo :=
  if offset < endOffset then
    if offset + 1 ≥ endOffset then []
    else
      let t := readUInt8 b offset
      let len := readUInt8 b (offset + 1)
      if offset + 2 + len > endOffset then []
      else
        ⟨t, len, (b.drop (offset + 2)).take len⟩ ::
          parseAddInfoEntries b (offset + 2 + len) endOffset
  else []
termination_by endOffset - offset
decreasing_by simp_wf; omega

/-- `CEMIFrame.additionalInfo` getter (tunneling.ts lines 910-935). -/
def additionalInfo (b : List Nat) : List AddInfo :=
  let addInfoLength := additionalInfoLength b
  if addInfoLength = 0 ∨ b.length < 2 + addInfoLength then []
  else parseAddInfoEntries b 2 (2 + addInfoLength)

/-- `CEMIFrame.serviceInfoOffset`: `2 + this.additionalInfoLength`. -/
def serviceInfoOffset (b : List Nat) : Nat := 2 + additionalInfoLength b

/-- `CEMIFrame.controlField1` getter (tunneling.ts lines 941-944). -/
def controlField1 (b : List Nat) : Nat :=
  let offset := serviceInfoOffset b
  if b.length > offset then readUInt8 b offset else 0

/-- `CEMIFrame.extendedFrame` getter: `(this.controlField1 & 0x40) === 0`. -/
def extendedFrame (b : List Nat) : Bool := controlField1 b &&& 0x40 == 0

/-- `CEMIFrame.standardFrame` getter: `(this.controlField1 & 0x40) !== 0`. -/
def standardFrame (b : List Nat) : Bool := controlField1 b &&& 0x40 != 0

/-- `CEMIFrame.controlField2` getter (tunneling.ts lines 946-953): a separate
byte for extended frames, and the constant 0 for standard frames. -/
def controlField2 (b : List Nat) : Nat :=
  if extendedFrame b then
    let offset := serviceInfoOffset b + 1
    if b.length > offset then readUInt8 b offset else 0
  else 0

/-- `CEMIFrame.priority` getter: `(this.controlField1 >> 2) & 0x03`.
Priority.LOW has the numeric value 3. -/
def priority (b : List Nat) : Nat := controlField1 b >>> 2 &&& 0x03

/-- `CEMIFrame.hopCount` getter: `(this.controlField2 >> 4) & 0x07`
(tunneling.ts lines 998-1000). -/
def hopCount (b : List Nat) : Nat := controlField2 b >>> 4 &&& 0x07

/-- `CEMIFrame.routingCounter` getter: alias of `hopCount` (tunneling.ts
lines 1002-1004). -/
def routingCounter (b : List Nat) : Nat := hopCount b

/-- `CEMIFrame.sourceAddress` getter (tunneling.ts lines 1006-1010). -/
def sourceAddress (b : List Nat) : Nat :=
  let offset := serviceInfoOffset b + 1 + (if extendedFrame b then 1 else 0)
  if b.length < offset + 2 then 0 else readUInt16BE b offset

/-- `CEMIFrame.destinationAddress` getter (tunneling.ts lines 1020-1024). -/
def destinationAddress (b : List Nat) : Nat :=
  let offset := serviceInfoOffset b + 3 + (if extendedFrame b then 1 else 0)
  if b.length < offset + 2 then 0 else readUInt16BE b offset

/-- `CEMIFrame.isGroupAddress` getter: `(this.controlField2 & 0x80) !== 0`
(tunneling.ts lines 1041-1043). -/
def isGroupAddress (b : List Nat) : Bool := controlField2 b &&& 0x80 != 0

/-- `CEMIFrame.destinationAddressString` getter (tunneling.ts lines
1026-1039): group form main/middle/sub when `isGroupAddress`, individual
area.line.device otherwise. -/
def destinationAddressString (b : List Nat) : String :=
  let addr := destinationAddress b
  if isGroupAddress b then
    toString (addr >>> 11 &&& 0x1f) ++ "/" ++ toString (addr >>> 8 &&& 0x07)
      ++ "/" ++ toString (addr &&& 0xff)
  else
    toString (addr >>> 12 &&& 0x0f) ++ "." ++ toString (addr >>> 8 &&& 0x0f)
      ++ "." ++ toString (addr &&& 0xff)

/-- `CEMIFrame.dataLength` getter (tunneling.ts lines 1045-1049): a full byte
at `serviceInfoOffset + 5` (plus one in extended frames), not masked. -/
def dataLength (b : List Nat) : Nat :=
  let offset := serviceInfoOffset b + 5 + (if extendedFrame b then 1 else 0)
  if b.length < offset + 1 then 0 else readUInt8 b offset

/-- `CEMIFrame.data` getter (tunneling.ts lines 1051-1055). -/
def data (b : List Nat) : List Nat :=
  let offset := serviceInfoOffset b + 6 + (if extendedFrame b then 1 else 0)
  if b.length ≤ offset then [] else b.drop offset

/-- `CEMIFrame.tpci` getter: top two bits of the first data byte. -/
def tpci (b : List Nat) : Nat :=
  let d := data b
  if d.length = 0 then 0 else readUInt8 d 0 >>> 6 &&& 0x03

/-- `CEMIFrame.apci` getter (tunneling.ts lines 1063-1070). -/
def apci (b : List Nat) : Nat :=
  let d := data b
  if d.length = 0 then 0
  else if d.length = 1 then readUInt8 d 0 &&& 0x3f
  else (readUInt8 d 0 &&& 0x03) <<< 8 ||| readUInt8 d 1

/-- `CEMIFrame.applicationData` getter (tunneling.ts lines 1072-1076); in the
surviving branch `data.length > 1`, the ternary offset is always 2. -/
def applicationData (b : List Nat) : List Nat :=
  let d := data b
  if d.length ≤ 1 then [] else d.drop 2

/-- `CEMIFrame.isValidBuffer` (tunneling.ts lines 1137-1142): at least two
bytes and a known message code. -/
def isValidBuffer (b : List Nat) : Bool :=
  2 ≤ b.length && (cemiMessageCodes.contains (readUInt8 b 0))

/-- `CEMIFrame.create` (tunneling.ts lines 796-855).  The byte writes are
reproduced in order; CTRL1 is `(hopCount << 4) | (priority << 2)`.  With empty
`data` the source writes a default TPCI byte at offset `frameLength`, which is
one past the end of the allocated buffer, so Node throws ERR_OUT_OF_RANGE;
this is modelled by the error branch. -/
def create (messageCode sourceAddress destinationAddress : Nat)
    (data : List Nat) (priority : Nat) (hopCount : Nat)
    (additionalInfo : List AddInfo) : Except String (List Nat) :=
  if data.length = 0 then .error "out of range"
  else
    let additionalInfoLength :=
      additionalInfo.foldl (fun acc info => acc + 2 + info.data.length) 0
    let ctrl1 := hopCount <<< 4 ||| priority <<< 2
    .ok ([messageCode, additionalInfoLength] ++
      additionalInfo.foldr
        (fun info acc => info.type :: info.data.length :: (info.data ++ acc)) [] ++
      [ctrl1] ++ writeUInt16BE sourceAddress ++ writeUInt16BE destinationAddress ++
      [data.length] ++ data)

/-!
Exception-aware images of the `CEMIFrame` getters: the same code with every
Node buffer read modelled as the throwing `readUInt8E` / `readUInt16BEE`,
propagating any exception.  They make the claim "no getter throws" a
theorem rather than an artefact of the total model above.
-/

/-- Exception-aware `CEMIFrame.messageCode`: the read at offset 0 is
unguarded in the source. -/
def messageCodeE (b : List Nat) : Except String Nat := readUInt8E b 0

/-- Exception-aware `CEMIFrame.additionalInfoLength`. -/
def additionalInfoLengthE (b : List Nat) : Except String Nat :=
  if b.length > 1 then readUInt8E b 1 else .ok 0

/-- Exception-aware image of `parseAddInfoEntries`. -/
def parseAddInfoEntriesE (b : List Nat) (offset endOffset : Nat) :
    Except String (List AddInfo) :=
  if offset < endOffset then
    if offset + 1 ≥ endOffset then .ok []
    else
      match readUInt8E b offset, readUInt8E b (offset + 1) with
      | .ok t, .ok len =>
        if offset + 2 + len > endOffset then .ok []
        else
          match parseAddInfoEntriesE b (offset + 2 + len) endOffset with
          | .ok rest => .ok (⟨t, len, (b.drop (offset + 2)).take len⟩ :: rest)
          | .error e => .error e
      | .error e, _ => .error e
      | .ok _, .error e => .error e
  else .ok []
termination_by endOffset - offset
decreasing_by simp_wf; omega

/-- Exception-aware `CEMIFrame.additionalInfo`. -/
def additionalInfoE (b : List Nat) : Except String (List AddInfo) :=
  match additionalInfoLengthE b with
  | .ok addInfoLength =>
    if addInfoLength = 0 ∨ b.length < 2 + addInfoLength then .ok []
    else parseAddInfoEntriesE b 2 (2 + addInfoLength)
  | .error e => .error e

/-- Exception-aware `CEMIFrame.controlField1` (the service-info offset is
`2 +` the additional-info length). -/
def controlField1E (b : List Nat) : Except String Nat :=
  match additionalInfoLengthE b with
  | .ok addInfoLength =>
    if b.length > 2 + addInfoLength then readUInt8E b (2 + addInfoLength)
    else .ok 0
  | .error e => .error e

/-- Exception-aware `CEMIFrame.extendedFrame`. -/
def extendedFrameE (b : List Nat) : Except String Bool :=
  match controlField1E b with
  | .ok c => .ok (c &&& 0x40 == 0)
  | .error e => .error e

/-- Exception-aware `CEMIFrame.controlField2`. -/
def controlField2E (b : List Nat) : Except String Nat :=
  match extendedFrameE b with
  | .ok ext =>
    if ext then
      match additionalInfoLengthE b with
      | .ok addInfoLength =>
        if b.length > 2 + addInfoLength + 1 then readUInt8E b (2 + addInfoLength + 1)
        else .ok 0
      | .error e => .error e
    else .ok 0
  | .error e => .error e

/-- Exception-aware `CEMIFrame.priority`. -/
def priorityE (b : List Nat) : Except String Nat :=
  match controlField1E b with
  | .ok c => .ok (c >>> 2 &&& 0x03)
  | .error e => .error e

/-- Exception-aware `CEMIFrame.hopCount`. -/
def hopCountE (b : List Nat) : Except String Nat :=
  match controlField2E b with
  | .ok c => .ok (c >>> 4 &&& 0x07)
  | .error e => .error e

/-- Exception-aware `CEMIFrame.sourceAddress`. -/
def sourceAddressE (b : List Nat) : Except String Nat :=
  match additionalInfoLengthE b, extendedFrameE b with
  | .ok addInfoLength, .ok ext =>
    let offset := 2 + addInfoLength + 1 + (if ext then 1 else 0)
    if b.length < offset + 2 then .ok 0 else readUInt16BEE b offset
  | .error e, _ => .error e
  | .ok _, .error e => .error e

/-- Exception-aware `CEMIFrame.destinationAddress`. -/
def destinationAddressE (b : List Nat) : Except String Nat :=
  match additionalInfoLengthE b, extendedFrameE b with
  | .ok addInfoLength, .ok ext =>
    let offset := 2 + addInfoLength + 3 + (if ext then 1 else 0)
    if b.length < offset + 2 then .ok 0 else readUInt16BEE b offset
  | .error e, _ => .error e
  | .ok _, .error e => .error e

/-- Exception-aware `CEMIFrame.isGroupAddress`. -/
def isGroupAddressE (b : List Nat) : Except String Bool :=
  match controlField2E b with
  | .ok c => .ok (c &&& 0x80 != 0)
  | .error e => .error e

/-- Exception-aware `CEMIFrame.dataLength`. -/
def dataLengthE (b : List Nat) : Except String Nat :=
  match additionalInfoLengthE b, extendedFrameE b with
  | .ok addInfoLength, .ok ext =>
    let offset := 2 + addInfoLength + 5 + (if ext then 1 else 0)
    if b.length < offset + 1 then .ok 0 else readUInt8E b offset
  | .error e, _ => .error e
  | .ok _, .error e => .error e

/-- Exception-aware `CEMIFrame.data` (`subarray` never throws). -/
def dataE (b : List Nat) : Except String (List Nat) :=
  match additionalInfoLengthE b, extendedFrameE b with
  | .ok addInfoLength, .ok ext =>
    let offset := 2 + addInfoLength + 6 + (if ext then 1 else 0)
    if b.length ≤ offset then .ok [] else .ok (b.drop offset)
  | .error e, _ => .error e
  | .ok _, .error e => .error e

/-- Exception-aware `CEMIFrame.tpci`. -/
def tpciE (b : List Nat) : Except String Nat :=
  match dataE b with
  | .ok d =>
    if d.length = 0 then .ok 0
    else
      match readUInt8E d 0 with
      | .ok x => .ok (x >>> 6 &&& 0x03)
      | .error e => .error e
  | .error e => .error e

/-- Exception-aware `CEMIFrame.apci`. -/
def apciE (b : List Nat) : Except String Nat :=
  match dataE b with
  | .ok d =>
    if d.length = 0 then .ok 0
    else if d.length = 1 then
      match readUInt8E d 0 with
      | .ok x => .ok (x &&& 0x3f)
      | .error e => .error e
    else
      match readUInt8E d 0, readUInt8E d 1 with
      | .ok x, .ok y => .ok ((x &&& 0x03) <<< 8 ||| y)
      | .error e, _ => .error e
      | .ok _, .error e => .error e
  | .error e => .error e

/-- Exception-aware `CEMIFrame.applicationData`. -/
def applicationDataE (b : List Nat) : Except String (List Nat) :=
  match dataE b with
  | .ok d => if d.length ≤ 1 then .ok [] else .ok (d.drop 2)
  | .error e => .error e

end CEMIFrame

namespace Routing

/-- Events observable from `KNXNetRoutingImpl` while handling one datagram.
Dispatch branches other than ROUTING_INDICATION are abstracted as `other`;
header failures surface on the error channel. -/
inductive RoutingEvent where
  | recv (frame : List Nat)
  | error (message : String)
  | other (serviceType : Nat)
deriving DecidableEq, Repr

/-- Modelled from the spec: `KNX_CONSTANTS.ROUTING_COUNTER.DONT_ROUTE` lives
in `constants.ts`, which is not among the sources; per the spec's don't-route
rule, frames whose hop count equals 0 are dropped, so the constant is 0. -/
def DONT_ROUTE : Nat := 0

/-- `KNXNetRoutingImpl.extractRoutingCounter` (interfaces/routing.ts lines
232-239). -/
def extractRoutingCounter (cemiFrame : List Nat) : Nat :=
  if cemiFrame.length < 8 then DONT_ROUTE
  else readUInt8 cemiFrame 1 >>> 4 &&& 0x07

/-- `KNXNetRoutingImpl.handleRoutingIndication` (interfaces/routing.ts lines
178-203).  `CEMIFrame.fromBuffer` throws exactly when the buffer is shorter
than two bytes, which the fallback branch turns into an error event. -/
def handleRoutingIndication (cemiFrame : List Nat) : List RoutingEvent :=
  if CEMIFrame.isValidBuffer cemiFrame then
    if CEMIFrame.routingCounter cemiFrame = DONT_ROUTE then []
    else [.recv cemiFrame]
  else
    if extractRoutingCounter cemiFrame = DONT_ROUTE then []
    else if 2 ≤ cemiFrame.length then [.recv cemiFrame]
    else [.error "Invalid cEMI frame received"]

/-- `KNXNetRoutingImpl.handleIncomingMessage` together with
`parseKNXNetFrame` (interfaces/routing.ts lines 98-162), restricted to the
ROUTING_INDICATION branch of the dispatch switch; the LOST_MESSAGE, BUSY and
unknown-service branches are abstracted as `other` events.  The cEMI payload
is `buffer.subarray(headerSize, totalLength)`. -/
def handleIncomingMessage (msg : List Nat) : List RoutingEvent :=
  if msg.length < 6 then [.error "Invalid frame: too short"]
  else if readUInt8 msg 0 ≠ 6 ∨ readUInt8 msg 1 ≠ 0x10 then
    [.error "Invalid frame header"]
  else if readUInt16BE msg 2 = 0x0530 then
    handleRoutingIndication ((msg.drop 6).take (readUInt16BE msg 4 - 6))
  else [.other (readUInt16BE msg 2)]

end Routing

namespace Tunneling

/-- Modelled from the spec: `KNX_CONSTANTS.ERROR_CODES.E_NO_ERROR` lives in
`constants.ts`, which is not among the sources; the spec fixes the accepted
status as 0x00 (E_NO_ERROR). -/
def E_NO_ERROR : Nat := 0x00

/-- `KNXNetTunnelingImpl.isTunnelingAck` (tunneling.ts lines 305-309): at
least six bytes and service type TUNNELLING_ACK (0x0421). -/
def isTunnelingAck (msg : List Nat) : Bool :=
  6 ≤ msg.length && readUInt16BE msg 2 == 0x0421

/-- `KNXNetTunnelingImpl.parseTunnelingAck` (tunneling.ts lines 339-342):
an unguarded `readUInt8(9)`, so Node throws on shorter messages. -/
def parseTunnelingAck (msg : List Nat) : Except String Nat := readUInt8E msg 9

/-- `KNXNetTunnelingImpl.createTunnelingRequestFrame` (tunneling.ts lines
242-262): envelope, connection header `{4, connectionId, seq, 0}`, cEMI. -/
def createTunnelingRequestFrame (connectionId seq : Nat) (cemiFrame : List Nat) :
    List Nat :=
  [6, 0x10] ++ writeUInt16BE 0x0420 ++ writeUInt16BE (10 + cemiFrame.length) ++
    [4, connectionId, seq, 0] ++ cemiFrame

/-- Outcome of the promise returned by `KNXNetTunnelingImpl.send`. -/
inductive SendOutcome where
  | resolved
  | rejected (status : Nat)
  | threw
  | timeout
deriving DecidableEq, Repr

/-- The `handleAck` wait loop of `KNXNetTunnelingImpl.send` (tunneling.ts
lines 70-103) applied to the inbound datagrams that arrive before the
connection timeout: the first message satisfying `isTunnelingAck` settles the
promise — resolve on status E_NO_ERROR, reject with the status otherwise;
`parseTunnelingAck` throwing escapes the handler (`threw`); if no ack-typed
message arrives the timeout rejects the send. -/
def awaitTunnelingAck (msgs : List (List Nat)) : SendOutcome :=
  match msgs.find? isTunnelingAck with
  | none => .timeout
  | some m =>
    match parseTunnelingAck m with
    | .ok s => if s = E_NO_ERROR then .resolved else .rejected s
    | .error _ => .threw

/-- `KNXNetTunnelingImpl.sendTunnelingAck` (tunneling.ts lines 400-428): the
10-byte TUNNELLING_ACK frame echoing connection id, sequence and status. -/
def sendTunnelingAck (connectionId sequenceCounter status : Nat) : List Nat :=
  [6, 0x10] ++ writeUInt16BE 0x0421 ++ writeUInt16BE 10 ++
    [4, connectionId, sequenceCounter, status]

/-- Events observable from `KNXNetTunnelingImpl` while handling one inbound
TUNNELLING_REQUEST. -/
inductive TunnelEvent where
  | ack (frame : List Nat)
  | recv (frame : List Nat)
  | error (message : String)
deriving DecidableEq, Repr

/-- `KNXNetTunnelingImpl.handleTunnelingRequest` (tunneling.ts lines
366-398).  The connection-header reads at offsets 7 and 8 are unguarded, so a
message shorter than 9 bytes throws, which `handleIncomingMessage` catches
and reports as an error event.  The cEMI payload starts at offset 10; both
the `isValidBuffer` branch and the fallback `fromBuffer` retry deliver it,
so every payload of at least two bytes is emitted via recv. -/
def handleTunnelingRequest (msg : List Nat) : List TunnelEvent :=
  match readUInt8E msg 7, readUInt8E msg 8 with
  | .ok connectionId, .ok sequenceCounter =>
    let ackEvents : List TunnelEvent :=
      [.ack (sendTunnelingAck connectionId sequenceCounter E_NO_ERROR)]
    let cemiFrameBuffer := msg.drop 10
    if CEMIFrame.isValidBuffer cemiFrameBuffer then
      ackEvents ++ [.recv cemiFrameBuffer]
    else if 2 ≤ cemiFrameBuffer.length then
      ackEvents ++ [.recv cemiFrameBuffer]
    else ackEvents ++ [.error "Invalid cEMI frame received"]
  | _, _ => [.error "out of range"]

/-- Receive-path processing of a sequence of inbound TUNNELLING_REQUEST
datagrams.  The source keeps no inbound sequence-counter state, so the
events of a stream are the concatenation of the per-message events. -/
def processTunnelingRequests (msgs : List (List Nat)) : List TunnelEvent :=
  msgs.foldr (fun m acc => handleTunnelingRequest m ++ acc) []

/-- Number of recv deliveries among a list of events. -/
def countRecv (events : List TunnelEvent) : Nat :=
  (events.filter fun e => match e with | .recv _ => true | _ => false).length

end Tunneling

namespace KNXnetIPFrame

/-- The parsed `KNXnetIPFrame` (src/src/discovery.ts flattened file, lines
332-339): service type and payload. -/
structure Frame where
  service : Nat
  payload : List Nat
deriving DecidableEq, Repr

/-- `KNXnetIPFrame.fromBuffer` (discovery.ts lines 341-365): requires six
header bytes, a buffer at least as long as the declared total length, header
size 6 and version 0x10, in that order of checks; the payload is
`buffer.slice(6, totalLength)`. -/
def fromBuffer (buffer : List Nat) : Except String Frame :=
  if buffer.length < 6 then .error "Buffer too short for KNXnet/IP header"
  else
    let headerSize := readUInt8 buffer 0
    let version := readUInt8 buffer 1
    let service := readUInt16BE buffer 2
    let totalLength := readUInt16BE buffer 4
    if buffer.length < totalLength then
      .error "Buffer length does not match declared length"
    else if headerSize ≠ 6 then .error "Invalid header size"
    else if version ≠ 0x10 then .error "Invalid KNXnet/IP version"
    else .ok ⟨service, (buffer.drop 6).take (totalLength - 6)⟩

/-- `KNXnetIPFrame.toBuffer` (discovery.ts lines 367-379):
`{6, 0x10, service, 6 + payload.length}` followed by the payload. -/
def toBuffer (f : Frame) : List Nat :=
  [6, 0x10] ++ writeUInt16BE f.service ++ writeUInt16BE (6 + f.payload.length) ++
    f.payload

end KNXnetIPFrame

namespace Management

/-- Buffer layout shared by the cEMI property frames
(src/src/frames/cemi-properties.ts lines 26-71):
`msgCode | interfaceObject:u16 | objectInstance | propertyId |
nElements:4bits·startIndex:12bits | data`.  `CEMIPropertyReadReq` itself is
not among the sources; modelled from the spec's property-frame layout (§3)
with the in-repo `CEMIPropertyWrite` as the byte-level template, message code
M_PropRead.req = 0xFC. -/
def propertyReadReqBuffer (interfaceObject objectInstance propertyId
    numberOfElements startIndex : Nat) : List Nat :=
  [0xFC] ++ writeUInt16BE interfaceObject ++ [objectInstance, propertyId] ++
    writeUInt16BE (numberOfElements <<< 12 ||| (startIndex &&& 0x0fff))

/-- Field accessors of a property frame, per the same layout: the identifiers
live at fixed offsets and the payload starts at offset 7. -/
def propInterfaceObject (b : List Nat) : Nat := readUInt16BE b 1

def propObjectInstance (b : List Nat) : Nat := readUInt8 b 3

def propPropertyId (b : List Nat) : Nat := readUInt8 b 4

def propStartIndex (b : List Nat) : Nat := readUInt16BE b 5 &&& 0x0fff

def propData (b : List Nat) : List Nat := b.drop 7

/-- Outcome of the promise returned by `readProperty`. -/
inductive ReadOutcome where
  | resolved (data : List Nat)
  | timeout
deriving DecidableEq, Repr

/-- The hardcoded timeout of `KNXNetManagementImpl.readProperty` (and of
`KNXUSBImpl.readProperty`): 5000 ms. -/
def readPropertyTimeoutMs : Nat := 5000

/-- The `responseHandler` wait loop of `KNXNetManagementImpl.readProperty`
(unnamed management source, lines 158-187; `KNXUSBImpl.readProperty` is
identical): applied to the recv frames arriving before the timeout, the
first frame whose message code is M_PropRead.con (0xFB) resolves the promise
with that frame's payload bytes — no identifier of the request is compared;
with no such frame the 5 s timeout rejects. -/
def readPropertyAwait (frames : List (List Nat)) : ReadOutcome :=
  match frames.find? (fun f => readUInt8 f 0 == 0xFB) with
  | some f => .resolved (propData f)
  | none => .timeout

end Management

namespace USB

/-- `KNXUSBImpl.processBuffer` (usb.ts lines 336-354): when more than three
bytes are buffered, the frame handed to `handleFrame` is
`buffer.subarray(3, 3 + buffer[2])`. -/
def processBuffer (buffer : List Nat) : Option (List Nat) :=
  if buffer.length > 3 then some ((buffer.drop 3).take (readUInt8 buffer 2))
  else none

/-- `KNXUSBImpl.handleIncomingData` (usb.ts lines 310-334) as a transition on
the reassembly buffer, returning the new buffer and the frame delivered to
`handleFrame`, if any.  Reports whose first byte is not 0x01 are ignored.
On a start report (`packageType & 0x01`) the source executes
`Buffer.from(data, 0, dataLength)`; for a Buffer argument Node's
`Buffer.from` ignores the extra arguments and copies the whole report, so
the buffer is replaced by `data` in full.  Continuation reports append
`data.subarray(0, dataLength)`.  Inputs are HID reports, which carry at
least the three header bytes read here. -/
def handleIncomingData (buffer : List Nat) (data : List Nat) :
    List Nat × Option (List Nat) :=
  if readUInt8 data 0 = 0x01 then
    let packageType := readUInt8 data 1
    let dataLength := readUInt8 data 2
    let buffer' :=
      if packageType &&& 0x01 ≠ 0 then data
      else buffer ++ data.take dataLength
    if packageType &&& 0x02 ≠ 0 then (buffer', processBuffer buffer')
    else (buffer', none)
  else (buffer, none)

/-- Run a sequence of inbound HID reports through `handleIncomingData`,
collecting the frames delivered to `handleFrame`. -/
def runReports (reports : List (List Nat)) : List Nat × List (List Nat) :=
  reports.foldl
    (fun acc report =>
      let step := handleIncomingData acc.1 report
      (step.1, acc.2 ++ (step.2.map fun f => [f]).getD []))
    ([], [])

end USB

namespace BufferHeap

/-- A reference into a tiny heap of Node buffers, used to state aliasing
facts about `CEMIFrame.toBuffer`. -/
abbrev Ref := Nat

/-- The heap: each cell holds the bytes of one allocated buffer. -/
abbrev Store := List (List Nat)

/-- Allocate a fresh buffer holding the given bytes. -/
def alloc (σ : Store) (bytes : List Nat) : Ref × Store :=
  (σ.length, σ ++ [bytes])

/-- The bytes currently held by a buffer. -/
def getBytes (σ : Store) (r : Ref) : List Nat := σ.getD r []

/-- Mutate one byte of a buffer in place, as JavaScript index assignment
does. -/
def writeByte (σ : Store) (r : Ref) (i v : Nat) : Store :=
  σ.set r ((σ.getD r []).set i v)

/-- A `CEMIFrame` object: the constructor stores the buffer reference it was
given (`this.buffer = buffer`, tunneling.ts lines 785-790). -/
structure FrameRef where
  buffer : Ref
deriving DecidableEq, Repr

/-- `CEMIFrame.fromBuffer` / the constructor (tunneling.ts lines 785-794):
throws exactly when the buffer holds fewer than two bytes, otherwise wraps
the same buffer reference. -/
def fromBuffer (σ : Store) (r : Ref) : Except String FrameRef :=
  if (getBytes σ r).length < 2 then .error "Invalid cEMI frame: too short"
  else .ok ⟨r⟩

/-- `CEMIFrame.toBuffer` (tunneling.ts lines 1086-1088):
`Buffer.from(this.buffer)` allocates a fresh copy of the frame's bytes. -/
def toBuffer (σ : Store) (f : FrameRef) : Ref × Store :=
  alloc σ (getBytes σ f.buffer)

end BufferHeap

/-- The spec's group-destination scenario bytes
`29 00 FC D0 11 04 01 81 00 80`. -/
def groupFrameBytes : List Nat :=
  [0x29, 0x00, 0xFC, 0xD0, 0x11, 0x04, 0x01, 0x81, 0x00, 0x80]

/-- The bytes produced by the spec's build round-trip scenario,
`create(L_DATA.req, src 0x1101, dst 0x0801, data [0x00, 0x80], priority Low,
hop 6)`. -/
def builtFrameBytes : List Nat :=
  [0x11, 0x00, 0x6C, 0x11, 0x01, 0x08, 0x01, 0x02, 0x00, 0x80]

/-- A ROUTING_INDICATION datagram whose cEMI payload is an extended frame
with hop count 6. -/
def routingDatagramSample : List Nat :=
  [6, 0x10, 0x05, 0x30, 0x00, 17] ++
    [0x29, 0x00, 0x3C, 0x60, 0xD0, 0x11, 0x04, 0x01, 0x00, 0x00, 0x80]

/-- A TUNNELLING_ACK whose connection header carries connection id 99 and
sequence 77, with status 0. -/
def mismatchedAck : List Nat := [6, 0x10, 0x04, 0x21, 0x00, 0x0A, 4, 99, 77, 0]

/-- A TUNNELLING_REQUEST with connection id 7 and sequence counter 5 whose
payload is a valid cEMI buffer. -/
def dupRequest : List Nat :=
  [6, 0x10, 0x04, 0x20, 0x00, 16, 4, 7, 5, 0] ++
    [0x29, 0x00, 0xBC, 0xD0, 0x11, 0x04]

/-- An M_PropRead.con frame for interface object 9, object instance 2,
property 11, start index 0, with payload byte 0x42 — deliberately different
identifiers from the request in the C6 counterexample. -/
def conFrameOther : List Nat := [0xFB, 0x00, 0x09, 0x02, 0x0B, 0x10, 0x00, 0x42]

/-- A TUNNELLING_ACK with connection id 7, sequence 0 and status 0. -/
def matchedAck : List Nat := [6, 0x10, 0x04, 0x21, 0x00, 0x0A, 4, 7, 0, 0]

/-- A TUNNELLING_REQUEST with connection id 7 and sequence counter 9 whose
payload is a valid cEMI buffer. -/
def tunnelRequestSample : List Nat :=
  [6, 0x10, 0x04, 0x20, 0x00, 16, 4, 7, 9, 0] ++
    [0x29, 0x00, 0xBC, 0xD0, 0x11, 0x04]

/-- An M_PropRead.con frame for interface object 8, object instance 1,
property 0x34, start index 1, with payload byte 0x55. -/
def conFrameMatch : List Nat := [0xFB, 0x00, 0x08, 0x01, 0x34, 0x10, 0x01, 0x55]

/-- A SEARCH_REQUEST envelope with a two-byte payload, total length 8. -/
def envelopeSample : List Nat := [6, 0x10, 0x02, 0x01, 0x00, 0x08, 0xAA, 0xBB]

/-- A one-buffer heap whose only cell holds three cEMI bytes. -/
def heapSample : BufferHeap.Store := [[0x29, 0x00, 0xBC]]

/-!
Theorems.
-/

theorem readUInt8E_ok {b : List Nat} {i : Nat} (h : i < b.length) :
    readUInt8E b i = .ok (readUInt8 b i) := by
  simp [readUInt8E, dif_pos h, readUInt8, List.getD_eq_getElem _ _ h,
    List.getElem?_eq_getElem h]

theorem readUInt16BEE_ok {b : List Nat} {i : Nat} (h : i + 2 ≤ b.length) :
    readUInt16BEE b i = .ok (readUInt16BE b i) := by
  simp [readUInt16BEE, if_pos h, readUInt16BE]

/-- Claim C1, evaluation of the code at the spec's group-destination bytes:
the frame is standard, the byte at `serviceInfo + 5` is 0x81, yet
`controlField2` is 0, so `isGroupAddress` is false, `dataLength` is the full
byte 0x81 = 129, and the destination renders in individual form "0.4.1"
rather than the claimed group form. -/
theorem c1_group_bit_eval :
    CEMIFrame.standardFrame groupFrameBytes = true ∧
    readUInt8 groupFrameBytes (CEMIFrame.serviceInfoOffset groupFrameBytes + 5) = 0x81 ∧
    CEMIFrame.controlField2 groupFrameBytes = 0 ∧
    CEMIFrame.isGroupAddress groupFrameBytes = false ∧
    CEMIFrame.dataLength groupFrameBytes = 129 ∧
    CEMIFrame.destinationAddressString groupFrameBytes = "0.4.1" := by
  refine ⟨by decide, by decide, by decide, by decide, by decide, ?_⟩
  decide

/-- Claim C2, evaluation of the code at the spec's build round-trip
scenario: `create(L_DATA.req, 0x1101, 0x0801, [0x00, 0x80], Low, 6)` builds
`builtFrameBytes`; parsing recovers source, destination, data length and
priority, but the hop count parses as 0, not the supplied 6, because
`create` packs the hop count into CTRL1 while `hopCount` reads it from
`controlField2`, which is 0 for the standard frame just built. -/
theorem c2_create_parse_eval :
    CEMIFrame.create 0x11 0x1101 0x0801 [0x00, 0x80] 3 6 [] = .ok builtFrameBytes ∧
    CEMIFrame.sourceAddress builtFrameBytes = 0x1101 ∧
    CEMIFrame.destinationAddress builtFrameBytes = 0x0801 ∧
    CEMIFrame.dataLength builtFrameBytes = 2 ∧
    CEMIFrame.priority builtFrameBytes = 3 ∧
    CEMIFrame.hopCount builtFrameBytes = 0 := by
  refine ⟨?_, by decide, by decide, by decide, by decide, by decide⟩
  rfl

/-- Claim C7, evaluation of the HID reassembly at a packet whose body
crosses two reports: the delivered frame is only the first report's body
`[0xAA, 0xBB]`, not the concatenation `[0xAA, 0xBB, 0xCC, 0xDD]` of the two
bodies.  A single-report packet is delivered correctly, and a report whose
report id is not 0x01 is ignored. -/
theorem c7_reassembly_eval :
    (USB.runReports [[1, 0x01, 2, 0xAA, 0xBB], [1, 0x02, 2, 0xCC, 0xDD]]).2 =
      [[0xAA, 0xBB]] ∧
    (USB.runReports [[1, 0x03, 2, 0xAA, 0xBB]]).2 = [[0xAA, 0xBB]] ∧
    (USB.runReports [[2, 0x03, 2, 0xAA, 0xBB]]).2 = [] := by
  refine ⟨by decide, by decide, by decide⟩

/-- Claim C4 counterexample: a send emitted with connection id 7 and
sequence 0 is resolved by a TUNNELLING_ACK whose connection header carries
connection id 99 and sequence 77 — the ack wait loop never compares the
connection header, refuting "resolves only upon receipt of a TUNNELLING_ACK
whose connection header carries the same connectionId and ... sequence". -/
theorem c4_ack_match_counterexample :
    (Tunneling.createTunnelingRequestFrame 7 0 [0x11, 0x00]).getD 7 0 = 7 ∧
    (Tunneling.createTunnelingRequestFrame 7 0 [0x11, 0x00]).getD 8 0 = 0 ∧
    Tunneling.isTunnelingAck mismatchedAck = true ∧
    mismatchedAck.getD 7 0 = 99 ∧
    mismatchedAck.getD 8 0 = 77 ∧
    Tunneling.awaitTunnelingAck [mismatchedAck] = .resolved := by
  refine ⟨by decide, by decide, by decide, by decide, by decide, by decide⟩

/-- Claim C5 counterexample: delivering the same TUNNELLING_REQUEST
(sequence counter 5) twice produces two recv deliveries — the receive path
keeps no last-accepted sequence, so a duplicate of the last sequence is
re-delivered to the consumer. -/
theorem c5_duplicate_redelivery_counterexample :
    dupRequest.getD 8 0 = 5 ∧
    Tunneling.countRecv (Tunneling.processTunnelingRequests [dupRequest, dupRequest]) = 2 := by
  refine ⟨by decide, by decide⟩

/-- Claim C6 counterexample: a readProperty request for interface object 8,
property 52, start index 1 is resolved by an M_PropRead.con whose
identifiers are interface object 9, property 11, start index 0 — the
response handler checks only the message code, refuting the claimed
identifier correlation. -/
theorem c6_correlation_counterexample :
    Management.propInterfaceObject (Management.propertyReadReqBuffer 8 1 52 1 1) = 8 ∧
    Management.propPropertyId (Management.propertyReadReqBuffer 8 1 52 1 1) = 52 ∧
    Management.propStartIndex (Management.propertyReadReqBuffer 8 1 52 1 1) = 1 ∧
    Management.propInterfaceObject conFrameOther = 9 ∧
    Management.propPropertyId conFrameOther = 11 ∧
    Management.propStartIndex conFrameOther = 0 ∧
    Management.readPropertyAwait [conFrameOther] = .resolved [0x42] := by
  refine ⟨by decide, by decide, by decide, by decide, by decide, by decide, by decide⟩

/-- Claim C3: for an inbound ROUTING_INDICATION datagram whose cEMI payload
is a valid buffer, the routing receive path emits exactly one recv of the
parsed frame when its hop count is non-zero and nothing when the hop count
is zero (the don't-route rule). -/
theorem c3_routing_hop_filter :
    ∀ msg : List Nat, 6 ≤ msg.length → readUInt8 msg 0 = 6 → readUInt8 msg 1 = 0x10 →
      readUInt16BE msg 2 = 0x0530 →
      CEMIFrame.isValidBuffer ((msg.drop 6).take (readUInt16BE msg 4 - 6)) = true →
      Routing.handleIncomingMessage msg =
        (if CEMIFrame.hopCount ((msg.drop 6).take (readUInt16BE msg 4 - 6)) = 0 then []
         else [.recv ((msg.drop 6).take (readUInt16BE msg 4 - 6))]) := by
  intro msg hlen h0 h1 hsvc hvalid
  unfold Routing.handleIncomingMessage
  rw [if_neg (by omega), if_neg (by simp [h0, h1]), if_pos hsvc]
  unfold Routing.handleRoutingIndication
  rw [if_pos hvalid]
  simp [CEMIFrame.routingCounter, Routing.DONT_ROUTE]

/-- Witness for C3 at a concrete datagram carrying an extended frame with
hop count 6. -/
theorem c3_routing_hop_filter_witness :
    CEMIFrame.isValidBuffer ((routingDatagramSample.drop 6).take
      (readUInt16BE routingDatagramSample 4 - 6)) = true ∧
    Routing.handleIncomingMessage routingDatagramSample =
      (if CEMIFrame.hopCount ((routingDatagramSample.drop 6).take
          (readUInt16BE routingDatagramSample 4 - 6)) = 0 then []
       else [.recv ((routingDatagramSample.drop 6).take
          (readUInt16BE routingDatagramSample 4 - 6))]) :=
  ⟨by decide, c3_routing_hop_filter routingDatagramSample (by decide) (by decide)
    (by decide) (by decide) (by decide)⟩

/-- Claim C4 as amended: the send promise is settled by the first inbound
datagram of service type TUNNELLING_ACK regardless of its connection header
— resolved when its status byte is 0, rejected with the status otherwise —
and times out when no ack-typed datagram arrives. -/
theorem c4_ack_first_settles :
    (∀ msgs : List (List Nat), (∀ m ∈ msgs, Tunneling.isTunnelingAck m = false) →
      Tunneling.awaitTunnelingAck msgs = .timeout) ∧
    (∀ msgs m, msgs.find? Tunneling.isTunnelingAck = some m → 10 ≤ m.length →
      Tunneling.awaitTunnelingAck msgs =
        (if m.getD 9 0 = 0 then .resolved else .rejected (m.getD 9 0))) := by
  constructor
  · intro msgs hall
    unfold Tunneling.awaitTunnelingAck
    rw [List.find?_eq_none.mpr (by intro x hx; simp [hall x hx])]
  · intro msgs m hfind hlen
    have hp : Tunneling.parseTunnelingAck m = .ok (m.getD 9 0) := by
      unfold Tunneling.parseTunnelingAck
      rw [readUInt8E_ok (by omega)]
      rfl
    unfold Tunneling.awaitTunnelingAck
    rw [hfind]
    simp only [hp]
    simp [Tunneling.E_NO_ERROR]

/-- Witness for C4 at a concrete matching acknowledgement with status 0. -/
theorem c4_ack_first_settles_witness :
    ([matchedAck].find? Tunneling.isTunnelingAck = some matchedAck) ∧
    Tunneling.awaitTunnelingAck [matchedAck] =
      (if matchedAck.getD 9 0 = 0 then .resolved
       else .rejected (matchedAck.getD 9 0)) :=
  ⟨by decide, c4_ack_first_settles.2 [matchedAck] matchedAck (by decide) (by decide)⟩

/-- Claim C5 as amended: every inbound TUNNELLING_REQUEST with a readable
connection header is acknowledged first, with a TUNNELLING_ACK echoing the
received sequence counter (byte 8 of the ack frame equals byte 8 of the
request), even when the sequence is out of order or a duplicate; but the
receive path keeps no last-accepted sequence, so any request whose cEMI
payload has at least two bytes is delivered via recv, and processing the
same request twice re-delivers it. -/
theorem c5_ack_echo_and_redelivery :
    ∀ msg : List Nat, 9 ≤ msg.length →
      (∃ rest, Tunneling.handleTunnelingRequest msg =
        .ack (Tunneling.sendTunnelingAck (msg.getD 7 0) (msg.getD 8 0)
          Tunneling.E_NO_ERROR) :: rest) ∧
      (Tunneling.sendTunnelingAck (msg.getD 7 0) (msg.getD 8 0)
        Tunneling.E_NO_ERROR).getD 8 0 = msg.getD 8 0 ∧
      (2 ≤ msg.length - 10 →
        Tunneling.TunnelEvent.recv (msg.drop 10) ∈ Tunneling.handleTunnelingRequest msg) ∧
      Tunneling.processTunnelingRequests [msg, msg] =
        Tunneling.handleTunnelingRequest msg ++ Tunneling.handleTunnelingRequest msg := by
  intro msg hlen
  have h7 := readUInt8E_ok (b := msg) (i := 7) (by omega)
  have h8 := readUInt8E_ok (b := msg) (i := 8) (by omega)
  refine ⟨?_, ?_, ?_, ?_⟩
  · unfold Tunneling.handleTunnelingRequest
    rw [h7, h8]
    simp only [readUInt8]
    split_ifs <;> exact ⟨_, rfl⟩
  · simp [Tunneling.sendTunnelingAck, writeUInt16BE, List.getD]
  · intro hcemi
    unfold Tunneling.handleTunnelingRequest
    rw [h7, h8]
    simp only []
    split_ifs with hv hshort
    · simp
    · simp
    · exact absurd hshort (by simp; omega)
  · simp [Tunneling.processTunnelingRequests]

/-- Witness for C5 at a concrete request with sequence counter 9. -/
theorem c5_ack_echo_and_redelivery_witness :
    9 ≤ tunnelRequestSample.length ∧
    (Tunneling.handleTunnelingRequest tunnelRequestSample).head? =
      some (.ack (Tunneling.sendTunnelingAck (tunnelRequestSample.getD 7 0)
        (tunnelRequestSample.getD 8 0) Tunneling.E_NO_ERROR)) ∧
    Tunneling.TunnelEvent.recv (tunnelRequestSample.drop 10) ∈
      Tunneling.handleTunnelingRequest tunnelRequestSample := by
  refine ⟨by decide, ?_, ?_⟩
  · obtain ⟨rest, hr⟩ :=
      (c5_ack_echo_and_redelivery tunnelRequestSample (by decide)).1
    rw [hr]; rfl
  · exact (c5_ack_echo_and_redelivery tunnelRequestSample (by decide)).2.2.1 (by decide)

/-- Claim C6 as amended: readProperty resolves with the payload bytes of the
first arriving M_PropRead.con frame regardless of its identifiers, and times
out (after the hardcoded 5000 ms) when no M_PropRead.con arrives. -/
theorem c6_read_property_next_con :
    (∀ frames f, frames.find? (fun g => readUInt8 g 0 == 0xFB) = some f →
      Management.readPropertyAwait frames = .resolved (Management.propData f)) ∧
    (∀ frames : List (List Nat), (∀ f ∈ frames, readUInt8 f 0 ≠ 0xFB) →
      Management.readPropertyAwait frames = .timeout) ∧
    Management.readPropertyTimeoutMs = 5000 := by
  refine ⟨?_, ?_, rfl⟩
  · intro frames f hfind
    unfold Management.readPropertyAwait
    rw [hfind]
  · intro frames hall
    unfold Management.readPropertyAwait
    rw [List.find?_eq_none.mpr (by intro x hx; simpa using hall x hx)]

/-- Claim C8: for buffers carrying the six header bytes, envelope parsing
succeeds exactly when the first byte is 6, the second is 0x10, and the
buffer is at least as long as the declared total length; and for every
envelope whose length equals its declared total length, serialising the
parsed frame reproduces the input byte for byte. -/
theorem c8_envelope_parse_roundtrip :
    (∀ b : List Nat, 6 ≤ b.length →
      ((KNXnetIPFrame.fromBuffer b).isOk = true ↔
        (readUInt8 b 0 = 6 ∧ readUInt8 b 1 = 0x10 ∧ readUInt16BE b 4 ≤ b.length))) ∧
    (∀ (b : List Nat) (f : KNXnetIPFrame.Frame), (∀ x ∈ b, x < 256) →
      readUInt16BE b 4 = b.length → KNXnetIPFrame.fromBuffer b = .ok f →
      KNXnetIPFrame.toBuffer f = b) := by
  constructor
  · intro b hlen
    constructor
    · intro hok
      simp only [KNXnetIPFrame.fromBuffer] at hok
      rw [if_neg (by omega)] at hok
      split_ifs at hok with htl hhs hv
      · simp [Except.isOk, Except.toBool] at hok
      · simp [Except.isOk, Except.toBool] at hok
      · simp [Except.isOk, Except.toBool] at hok
      · exact ⟨by omega, by omega, by omega⟩
    · intro h
      simp only [KNXnetIPFrame.fromBuffer]
      rw [if_neg (by omega), if_neg (by omega), if_neg (by simp [h.1]),
        if_neg (by simp [h.2.1])]
      rfl
  · intro b f h256 hlen hok
    have h6 : ¬ b.length < 6 := by
      intro hshort
      simp only [KNXnetIPFrame.fromBuffer] at hok
      rw [if_pos hshort] at hok
      cases hok
    rcases b with _ | ⟨b0, _ | ⟨b1, _ | ⟨b2, _ | ⟨b3, _ | ⟨b4, _ | ⟨b5, rest⟩⟩⟩⟩⟩⟩
    · exact absurd (by simp) h6
    · exact absurd (by simp) h6
    · exact absurd (by simp) h6
    · exact absurd (by simp) h6
    · exact absurd (by simp) h6
    · exact absurd (by simp) h6
    have hb2 : b2 < 256 := h256 _ (by simp)
    have hb3 : b3 < 256 := h256 _ (by simp)
    have hb4 : b4 < 256 := h256 _ (by simp)
    have hb5 : b5 < 256 := h256 _ (by simp)
    have e0 : readUInt8 (b0 :: b1 :: b2 :: b3 :: b4 :: b5 :: rest) 0 = b0 := rfl
    have e1 : readUInt8 (b0 :: b1 :: b2 :: b3 :: b4 :: b5 :: rest) 1 = b1 := rfl
    have e2 : readUInt16BE (b0 :: b1 :: b2 :: b3 :: b4 :: b5 :: rest) 2 =
        256 * b2 + b3 := rfl
    have e4 : readUInt16BE (b0 :: b1 :: b2 :: b3 :: b4 :: b5 :: rest) 4 =
        256 * b4 + b5 := rfl
    rw [e4, List.length_cons, List.length_cons, List.length_cons,
      List.length_cons, List.length_cons, List.length_cons] at hlen
    simp only [KNXnetIPFrame.fromBuffer] at hok
    rw [if_neg h6] at hok
    rw [e0, e1, e2, e4] at hok
    split_ifs at hok with htl hhs hv
    cases hok
    have hdrop : (b0 :: b1 :: b2 :: b3 :: b4 :: b5 :: rest).drop 6 = rest := rfl
    have hrest : 256 * b4 + b5 - 6 = rest.length := by omega
    simp only [KNXnetIPFrame.toBuffer, hdrop, hrest, List.take_length,
      writeUInt16BE]
    have hlen6 : (6 : Nat) + rest.length = 256 * b4 + b5 := by omega
    rw [hlen6]
    simp only [List.cons_append, List.nil_append, List.cons.injEq]
    refine ⟨by omega, by omega, by omega, by omega, by omega, by omega, trivial⟩

/-- Witness for C6 at a concrete confirmation frame. -/
theorem c6_read_property_next_con_witness :
    ([conFrameMatch].find? (fun g => readUInt8 g 0 == 0xFB) = some conFrameMatch) ∧
    Management.readPropertyAwait [conFrameMatch] =
      .resolved (Management.propData conFrameMatch) :=
  ⟨by decide, c6_read_property_next_con.1 [conFrameMatch] conFrameMatch (by decide)⟩

/-- Witness for C8 at a concrete SEARCH_REQUEST envelope. -/
theorem c8_envelope_parse_roundtrip_witness :
    6 ≤ envelopeSample.length ∧
    (KNXnetIPFrame.fromBuffer envelopeSample).isOk = true ∧
    KNXnetIPFrame.toBuffer ⟨0x0201, [0xAA, 0xBB]⟩ = envelopeSample := by
  refine ⟨by decide, ?_, ?_⟩
  · exact (c8_envelope_parse_roundtrip.1 envelopeSample (by decide)).mpr
      ⟨by decide, by decide, by decide⟩
  · exact c8_envelope_parse_roundtrip.2 envelopeSample ⟨0x0201, [0xAA, 0xBB]⟩
      (by decide) (by decide) rfl

/-- Claim C9: wrapping any buffer of at least two bytes succeeds, `toBuffer`
returns a fresh buffer holding the same bytes as the frame, and because the
returned reference is distinct from the frame's own, mutating the returned
buffer leaves the frame's bytes — and hence every getter value, illustrated
with `isGroupAddress` — unchanged. -/
theorem c9_frombuffer_tobuffer_copy :
    ∀ (σ : BufferHeap.Store) (r : BufferHeap.Ref), r < σ.length →
      2 ≤ (BufferHeap.getBytes σ r).length →
      BufferHeap.fromBuffer σ r = .ok ⟨r⟩ ∧
      BufferHeap.getBytes (BufferHeap.toBuffer σ ⟨r⟩).2 (BufferHeap.toBuffer σ ⟨r⟩).1 =
        BufferHeap.getBytes σ r ∧
      (BufferHeap.toBuffer σ ⟨r⟩).1 ≠ r ∧
      (∀ i v, BufferHeap.getBytes
          (BufferHeap.writeByte (BufferHeap.toBuffer σ ⟨r⟩).2
            (BufferHeap.toBuffer σ ⟨r⟩).1 i v) r = BufferHeap.getBytes σ r) ∧
      (∀ i v, CEMIFrame.isGroupAddress (BufferHeap.getBytes
          (BufferHeap.writeByte (BufferHeap.toBuffer σ ⟨r⟩).2
            (BufferHeap.toBuffer σ ⟨r⟩).1 i v) r) =
        CEMIFrame.isGroupAddress (BufferHeap.getBytes σ r)) := by
  intro σ r hr hlen
  have hne : σ.length ≠ r := ne_of_gt hr
  have hkey : ∀ i v, BufferHeap.getBytes
      (BufferHeap.writeByte (BufferHeap.toBuffer σ ⟨r⟩).2
        (BufferHeap.toBuffer σ ⟨r⟩).1 i v) r = BufferHeap.getBytes σ r := by
    intro i v
    unfold BufferHeap.toBuffer BufferHeap.alloc BufferHeap.writeByte
      BufferHeap.getBytes
    simp only [List.getD_eq_getD_get?, List.get?_eq_getElem?]
    rw [List.getElem?_set_ne hne, List.getElem?_append, if_pos hr]
  refine ⟨?_, ?_, ?_, hkey, fun i v => congrArg CEMIFrame.isGroupAddress (hkey i v)⟩
  · unfold BufferHeap.fromBuffer
    rw [if_neg (show ¬ (BufferHeap.getBytes σ r).length < 2 by omega)]
  · unfold BufferHeap.toBuffer BufferHeap.alloc BufferHeap.getBytes
    rw [List.getD_append_right _ _ _ _ le_rfl]
    simp
  · unfold BufferHeap.toBuffer BufferHeap.alloc
    simpa using hne

/-- Witness for C9 at a concrete one-buffer heap, mutating byte 0 of the
copy to 0xFF. -/
theorem c9_frombuffer_tobuffer_copy_witness :
    BufferHeap.fromBuffer heapSample 0 = .ok ⟨0⟩ ∧
    BufferHeap.getBytes (BufferHeap.writeByte (BufferHeap.toBuffer heapSample ⟨0⟩).2
      (BufferHeap.toBuffer heapSample ⟨0⟩).1 0 0xFF) 0 =
      BufferHeap.getBytes heapSample 0 :=
  ⟨(c9_frombuffer_tobuffer_copy heapSample 0 (by decide) (by decide)).1,
    (c9_frombuffer_tobuffer_copy heapSample 0 (by decide) (by decide)).2.2.2.1 0 0xFF⟩

theorem messageCodeE_ok {b : List Nat} (h : 0 < b.length) :
    CEMIFrame.messageCodeE b = .ok (CEMIFrame.messageCode b) := by
  unfold CEMIFrame.messageCodeE CEMIFrame.messageCode
  exact readUInt8E_ok h

theorem additionalInfoLengthE_ok (b : List Nat) :
    CEMIFrame.additionalInfoLengthE b = .ok (CEMIFrame.additionalInfoLength b) := by
  unfold CEMIFrame.additionalInfoLengthE CEMIFrame.additionalInfoLength
  split_ifs with h
  · exact readUInt8E_ok (by omega)
  · rfl

theorem parseAddInfoEntriesE_ok (b : List Nat) (endOffset : Nat)
    (hend : endOffset ≤ b.length) :
    ∀ fuel offset, endOffset - offset ≤ fuel →
      CEMIFrame.parseAddInfoEntriesE b offset endOffset =
        .ok (CEMIFrame.parseAddInfoEntries b offset endOffset) := by
  intro fuel
  induction fuel with
  | zero =>
    intro offset hf
    unfold CEMIFrame.parseAddInfoEntriesE CEMIFrame.parseAddInfoEntries
    rw [if_neg (show ¬ offset < endOffset by omega),
      if_neg (show ¬ offset < endOffset by omega)]
  | succ n ih =>
    intro offset hf
    unfold CEMIFrame.parseAddInfoEntriesE CEMIFrame.parseAddInfoEntries
    by_cases h1 : offset < endOffset
    · rw [if_pos h1, if_pos h1]
      by_cases h2 : offset + 1 ≥ endOffset
      · rw [if_pos h2, if_pos h2]
      · rw [if_neg h2, if_neg h2]
        rw [readUInt8E_ok (show offset < b.length by omega),
          readUInt8E_ok (show offset + 1 < b.length by omega)]
        simp only []
        by_cases h3 : offset + 2 + readUInt8 b (offset + 1) > endOffset
        · rw [if_pos h3, if_pos h3]
        · rw [if_neg h3, if_neg h3,
            ih (offset + 2 + readUInt8 b (offset + 1)) (by omega)]
    · rw [if_neg h1, if_neg h1]

theorem additionalInfoE_ok (b : List Nat) :
    CEMIFrame.additionalInfoE b = .ok (CEMIFrame.additionalInfo b) := by
  unfold CEMIFrame.additionalInfoE
  rw [additionalInfoLengthE_ok]
  simp only [CEMIFrame.additionalInfo]
  split_ifs with h
  · rfl
  · exact parseAddInfoEntriesE_ok b (2 + CEMIFrame.additionalInfoLength b)
      (by omega) (2 + CEMIFrame.additionalInfoLength b) 2 (by omega)

theorem controlField1E_ok (b : List Nat) :
    CEMIFrame.controlField1E b = .ok (CEMIFrame.controlField1 b) := by
  unfold CEMIFrame.controlField1E
  rw [additionalInfoLengthE_ok]
  simp only [CEMIFrame.controlField1, CEMIFrame.serviceInfoOffset]
  split_ifs with h
  · exact readUInt8E_ok (by omega)
  · rfl

theorem extendedFrameE_ok (b : List Nat) :
    CEMIFrame.extendedFrameE b = .ok (CEMIFrame.extendedFrame b) := by
  unfold CEMIFrame.extendedFrameE CEMIFrame.extendedFrame
  rw [controlField1E_ok]

theorem controlField2E_ok (b : List Nat) :
    CEMIFrame.controlField2E b = .ok (CEMIFrame.controlField2 b) := by
  unfold CEMIFrame.controlField2E
  rw [extendedFrameE_ok]
  simp only [CEMIFrame.controlField2, CEMIFrame.serviceInfoOffset]
  split_ifs with hext h
  · rw [additionalInfoLengthE_ok]
    simp only []
    rw [if_pos (by omega)]
    exact readUInt8E_ok (by omega)
  · rw [additionalInfoLengthE_ok]
    simp only []
    rw [if_neg (by omega)]
  · rfl

theorem priorityE_ok (b : List Nat) :
    CEMIFrame.priorityE b = .ok (CEMIFrame.priority b) := by
  unfold CEMIFrame.priorityE CEMIFrame.priority
  rw [controlField1E_ok]

theorem hopCountE_ok (b : List Nat) :
    CEMIFrame.hopCountE b = .ok (CEMIFrame.hopCount b) := by
  unfold CEMIFrame.hopCountE CEMIFrame.hopCount
  rw [controlField2E_ok]

theorem isGroupAddressE_ok (b : List Nat) :
    CEMIFrame.isGroupAddressE b = .ok (CEMIFrame.isGroupAddress b) := by
  unfold CEMIFrame.isGroupAddressE CEMIFrame.isGroupAddress
  rw [controlField2E_ok]

theorem sourceAddressE_ok (b : List Nat) :
    CEMIFrame.sourceAddressE b = .ok (CEMIFrame.sourceAddress b) := by
  unfold CEMIFrame.sourceAddressE
  rw [additionalInfoLengthE_ok, extendedFrameE_ok]
  simp only [CEMIFrame.sourceAddress, CEMIFrame.serviceInfoOffset]
  split_ifs <;> first | rfl | exact readUInt16BEE_ok (by omega)

theorem destinationAddressE_ok (b : List Nat) :
    CEMIFrame.destinationAddressE b = .ok (CEMIFrame.destinationAddress b) := by
  unfold CEMIFrame.destinationAddressE
  rw [additionalInfoLengthE_ok, extendedFrameE_ok]
  simp only [CEMIFrame.destinationAddress, CEMIFrame.serviceInfoOffset]
  split_ifs <;> first | rfl | exact readUInt16BEE_ok (by omega)

theorem dataLengthE_ok (b : List Nat) :
    CEMIFrame.dataLengthE b = .ok (CEMIFrame.dataLength b) := by
  unfold CEMIFrame.dataLengthE
  rw [additionalInfoLengthE_ok, extendedFrameE_ok]
  simp only [CEMIFrame.dataLength, CEMIFrame.serviceInfoOffset]
  split_ifs <;> first | rfl | exact readUInt8E_ok (by omega)

theorem dataE_ok (b : List Nat) :
    CEMIFrame.dataE b = .ok (CEMIFrame.data b) := by
  unfold CEMIFrame.dataE
  rw [additionalInfoLengthE_ok, extendedFrameE_ok]
  simp only [CEMIFrame.data, CEMIFrame.serviceInfoOffset]
  split_ifs <;> rfl

theorem tpciE_ok (b : List Nat) :
    CEMIFrame.tpciE b = .ok (CEMIFrame.tpci b) := by
  unfold CEMIFrame.tpciE
  rw [dataE_ok]
  simp only [CEMIFrame.tpci]
  split_ifs with h
  · rfl
  · rw [readUInt8E_ok (show 0 < (CEMIFrame.data b).length by omega)]

theorem apciE_ok (b : List Nat) :
    CEMIFrame.apciE b = .ok (CEMIFrame.apci b) := by
  unfold CEMIFrame.apciE
  rw [dataE_ok]
  simp only [CEMIFrame.apci]
  split_ifs with h h1
  · rfl
  · rw [readUInt8E_ok (show 0 < (CEMIFrame.data b).length by omega)]
  · rw [readUInt8E_ok (show 0 < (CEMIFrame.data b).length by omega),
      readUInt8E_ok (show 1 < (CEMIFrame.data b).length by omega)]

theorem applicationDataE_ok (b : List Nat) :
    CEMIFrame.applicationDataE b = .ok (CEMIFrame.applicationData b) := by
  unfold CEMIFrame.applicationDataE
  rw [dataE_ok]
  simp only [CEMIFrame.applicationData]
  split_ifs with h
  · rfl
  · rfl

/-- Claim C10: for every buffer of at least two bytes, every `CEMIFrame`
field getter returns without throwing — each exception-aware getter image
returns `.ok` of the total getter's value — and a field whose bytes lie
beyond the end of the buffer is reported as 0 (or as an empty list). -/
theorem c10_getters_total :
    ∀ b : List Nat, 2 ≤ b.length →
      CEMIFrame.messageCodeE b = .ok (CEMIFrame.messageCode b) ∧
      CEMIFrame.additionalInfoLengthE b = .ok (CEMIFrame.additionalInfoLength b) ∧
      CEMIFrame.additionalInfoE b = .ok (CEMIFrame.additionalInfo b) ∧
      CEMIFrame.controlField1E b = .ok (CEMIFrame.controlField1 b) ∧
      CEMIFrame.controlField2E b = .ok (CEMIFrame.controlField2 b) ∧
      CEMIFrame.priorityE b = .ok (CEMIFrame.priority b) ∧
      CEMIFrame.hopCountE b = .ok (CEMIFrame.hopCount b) ∧
      CEMIFrame.sourceAddressE b = .ok (CEMIFrame.sourceAddress b) ∧
      CEMIFrame.destinationAddressE b = .ok (CEMIFrame.destinationAddress b) ∧
      CEMIFrame.isGroupAddressE b = .ok (CEMIFrame.isGroupAddress b) ∧
      CEMIFrame.dataLengthE b = .ok (CEMIFrame.dataLength b) ∧
      CEMIFrame.dataE b = .ok (CEMIFrame.data b) ∧
      CEMIFrame.tpciE b = .ok (CEMIFrame.tpci b) ∧
      CEMIFrame.apciE b = .ok (CEMIFrame.apci b) ∧
      CEMIFrame.applicationDataE b = .ok (CEMIFrame.applicationData b) ∧
      (b.length < CEMIFrame.serviceInfoOffset b + 1 +
          (if CEMIFrame.extendedFrame b then 1 else 0) + 2 →
        CEMIFrame.sourceAddress b = 0) ∧
      (b.length < CEMIFrame.serviceInfoOffset b + 3 +
          (if CEMIFrame.extendedFrame b then 1 else 0) + 2 →
        CEMIFrame.destinationAddress b = 0) ∧
      (b.length < CEMIFrame.serviceInfoOffset b + 5 +
          (if CEMIFrame.extendedFrame b then 1 else 0) + 1 →
        CEMIFrame.dataLength b = 0) ∧
      (b.length ≤ CEMIFrame.serviceInfoOffset b + 6 +
          (if CEMIFrame.extendedFrame b then 1 else 0) →
        CEMIFrame.data b = []) := by
  intro b hb
  refine ⟨messageCodeE_ok (by omega), additionalInfoLengthE_ok b,
    additionalInfoE_ok b, controlField1E_ok b, controlField2E_ok b,
    priorityE_ok b, hopCountE_ok b, sourceAddressE_ok b,
    destinationAddressE_ok b, isGroupAddressE_ok b, dataLengthE_ok b,
    dataE_ok b, tpciE_ok b, apciE_ok b, applicationDataE_ok b, ?_, ?_, ?_, ?_⟩
  · intro h
    simp only [CEMIFrame.sourceAddress]
    rw [if_pos h]
  · intro h
    simp only [CEMIFrame.destinationAddress]
    rw [if_pos h]
  · intro h
    simp only [CEMIFrame.dataLength]
    rw [if_pos h]
  · intro h
    simp only [CEMIFrame.data]
    rw [if_pos h]

/-- Witness for C10 at the minimal two-byte buffer (whose service-info bytes
all lie beyond the end). -/
theorem c10_getters_total_witness :
    2 ≤ ([0x29, 0x00] : List Nat).length ∧
    CEMIFrame.sourceAddressE [0x29, 0x00] =
      .ok (CEMIFrame.sourceAddress [0x29, 0x00]) ∧
    CEMIFrame.apciE [0x29, 0x00] = .ok (CEMIFrame.apci [0x29, 0x00]) :=
  ⟨by decide, (c10_getters_total [0x29, 0x00] (by decide)).2.2.2.2.2.2.2.1,
    (c10_getters_total [0x29, 0x00] (by decide)).2.2.2.2.2.2.2.2.2.2.2.2.2.1⟩
